import Mathlib

/-!
Verification of the valuation and compatibility-scoring engine of the
MnA-Analyzer repository against its natural-language specification.

The Python sources are shallowly embedded: floats are modelled as exact
rationals (`ℚ`), with `ℝ` used only where the source computes genuinely
irrational functions (`np.std`, fractional powers for CAGR); Python
dictionaries whose key set matters are modelled as association lists;
operations that can raise a Python exception are modelled in the
`Except PyErr` monad.  Every definition follows the corresponding Python
function statement by statement; the source file and line numbers are cited
in the doc comments.
-/

namespace MnA

/-- Python runtime errors that the embedded code can surface.  `domainError`
is declared only so that the specification claim "fails with a typed
`DomainError`" can be stated; no function of the repository ever constructs
it (the source defines no such exception class). -/
inductive PyErr where
  | typeError (msg : String)
  | keyError (key : String)
  | domainError
  deriving DecidableEq

/-- One row of the `financials` table as the engine reads it
(`models/models.py`): a fiscal `year` and the JSON `data` payload.
`top` holds the numeric entries at the top level of `data` (the comps
endpoint and `assess_data_completeness` read these), and `values` holds the
entries of the `data["values"]` sub-dictionary (empty when the key is
absent, matching `data.get("values", {})`). -/
structure Financial where
  year : ℤ
  top : List (String × ℚ)
  values : List (String × ℚ)
  deriving DecidableEq

/-- Python `d.get(k, 0)` followed by `float(...)` on a numeric JSON dict. -/
def getNum (m : List (String × ℚ)) (k : String) : ℚ :=
  (m.lookup k).getD 0

/-- A row of the `companies` table (`models/models.py`): the model declares
`id`, `ticker`, `name`, `sector` and `market_cap`; there is no `industry`
column.  `sector` and `market_cap` are nullable. -/
structure Company where
  id : ℕ
  ticker : String
  name : String
  sector : Option String
  market_cap : Option ℚ
  deriving DecidableEq

/-! ## Compatibility scorer (`pairing.py`) -/

/-- Embeds `_size_score` (pairing.py:19-46).  The arguments are optional
because the Python parameters may be `None`; the guard
`if not acq_cap or not tgt_cap or acq_cap <= 0 or tgt_cap <= 0` returns 0
for `None` or non-positive caps (Python short-circuits, so `None` never
reaches the numeric comparison).  The function is total: the division
`tgt_cap / acq_cap` is only reached when both caps are strictly positive. -/
def _size_score (acq_cap tgt_cap : Option ℚ) : ℚ :=
  match acq_cap, tgt_cap with
  | some a, some t =>
    if a = 0 ∨ t = 0 ∨ a ≤ 0 ∨ t ≤ 0 then 0
    else
      -- ratio = tgt_cap / acq_cap; IDEAL_MIN 0.10, IDEAL_MAX 0.50,
      -- ABSOLUTE_MIN 0.05, ABSOLUTE_MAX 0.70
      let r := t / a
      if r < 1/20 ∨ 7/10 < r then 0
      else if 1/10 ≤ r ∧ r ≤ 1/2 then 1
      else if r < 1/10 then (r - 1/20) / (1/10 - 1/20)
      else 1 - (r - 1/2) / (7/10 - 1/2)
  | _, _ => 0

/-- Modelled from the spec: the size sub-score as §4.8 words it — 0 outside
[5%, 70%], 1 in the ideal band [10%, 50%], and linear interpolation to the
adjacent boundary value in the two transition bands. -/
def sizeScoreSpec (r : ℚ) : ℚ :=
  if r < 1/20 ∨ 7/10 < r then 0
  else if 1/10 ≤ r ∧ r ≤ 1/2 then 1
  else if r < 1/10 then 0 + (1 - 0) * ((r - 1/20) / (1/10 - 1/20))
  else 1 + (0 - 1) * ((r - 1/2) / (7/10 - 1/2))

/-- Python `str.lower()` (ASCII), written over the character list so that it
reduces in the kernel. -/
def pyLower (s : String) : String := ⟨s.data.map Char.toLower⟩

/-- Python `str.strip()`: drop whitespace from both ends. -/
def pyStrip (s : String) : String :=
  ⟨((s.data.dropWhile Char.isWhitespace).reverse.dropWhile Char.isWhitespace).reverse⟩

/-- Whether the first list is an initial segment of the second. -/
def isPre : List Char → List Char → Bool
  | [], _ => true
  | _ :: _, [] => false
  | a :: as, b :: bs => a = b && isPre as bs

/-- Whether the first list occurs contiguously inside the second. -/
def hasSubList : List Char → List Char → Bool
  | needle, [] => needle.isEmpty
  | needle, c :: rest => isPre needle (c :: rest) || hasSubList needle rest

/-- Python `needle in haystack` on strings. -/
def strContainsSub (haystack needle : String) : Bool :=
  hasSubList needle.data haystack.data

/-- The `ADJACENT_SECTORS` table of `_sector_score` (pairing.py:66-72). -/
def adjacentSectors : List (String × List String) :=
  [("technology", ["communications", "consumer cyclical"]),
   ("healthcare", ["technology", "consumer defensive"]),
   ("financial", ["technology", "real estate"]),
   ("consumer cyclical", ["technology", "consumer defensive"]),
   ("industrial", ["technology", "materials"])]

/-- The `COMPLEMENTARY` table of `_sector_score` (pairing.py:82-88). -/
def complementaryIndustries : List (String × List (String × List String)) :=
  [("technology",
    [("software", ["semiconductors", "hardware"]),
     ("hardware", ["software", "semiconductors"]),
     ("semiconductors", ["hardware", "software"])])]

/-- Embeds `_sector_score` (pairing.py:49-102).  Industries are optional
parameters defaulting to `None` in the source; Python's
`if acq_industry and tgt_industry` treats both `None` and `""` as falsy,
in which case a same-sector pair scores 0.7 without consulting the
industry tables. -/
def _sector_score (acq_sector tgt_sector : String)
    (acq_industry tgt_industry : Option String) : ℚ :=
  if acq_sector = "" ∨ tgt_sector = "" then 0
  else
    let a := pyLower (pyStrip acq_sector)
    let t := pyLower (pyStrip tgt_sector)
    if a = t then
      match acq_industry, tgt_industry with
      | some ai, some ti =>
        if ai = "" ∨ ti = "" then 7/10
        else
          let ai := pyLower (pyStrip ai)
          let ti := pyLower (pyStrip ti)
          if ai = ti then 1
          else if (complementaryIndustries.lookup a).elim false
              (fun m => (m.lookup ai).elim false (fun l => l.contains ti)) then 4/5
          else 3/5
      | _, _ => 7/10
    else if (adjacentSectors.lookup a).elim false (fun l => l.contains t) then 3/10
    else 0

/-! ## Base FCF estimation (`valuation.py:13-102`) -/

/-- Arithmetic mean of a list of rationals; 0 on the empty list (the source
never averages an empty list: every call site guards on non-emptiness). -/
def listMean (xs : List ℚ) : ℚ := xs.sum / xs.length

/-- Population variance, the square of `np.std`. -/
def pvariance (xs : List ℚ) : ℚ :=
  ((xs.map (fun x => (x - listMean xs) ^ 2)).sum) / xs.length

/-- Embeds `np.std(xs)` (population standard deviation), valued in `ℝ`
because the square root of a rational is irrational in general. -/
noncomputable def npStd (xs : List ℚ) : ℝ := Real.sqrt (pvariance xs)

/-- One entry of `years_data` in `calculate_base_fcf` (valuation.py:51-56). -/
structure YearData where
  revenue : ℚ
  ebit : ℚ
  fcf : ℚ
  capex : ℚ

/-- The `years_data` list of `calculate_base_fcf` (valuation.py:35-56): the
three most recent statements, keeping only years with `Revenue > 0`, with
unlevered FCF `ebit * (1 - 0.25) + D&A - |CapEx| - ΔNWC`. -/
def yearsData (financials : List Financial) : List YearData :=
  (financials.take 3).filterMap (fun fin =>
    let revenue := getNum fin.values "Revenue"
    let ebit := getNum fin.values "Operating Income"
    let depreciation := getNum fin.values "Depreciation & Amortization"
    let capex := |getNum fin.values "Capital Expenditure"|
    let nwc_change := getNum fin.values "Change in Working Capital"
    if 0 < revenue then
      some ⟨revenue, ebit, ebit * (1 - 1/4) + depreciation - capex - nwc_change, capex⟩
    else none)

/-- The `fcf_values` list of `calculate_base_fcf` (valuation.py:79). -/
def fcfValues (financials : List Financial) : List ℚ :=
  (yearsData financials).map YearData.fcf

/-- The `avg_fcf` value of `calculate_base_fcf` (valuation.py:70). -/
def avgFcf (financials : List Financial) : ℚ := listMean (fcfValues financials)

/-- The `stability_score` computed at valuation.py:78-84: the guard in the
source is `len(fcf_values) > 1 and avg_fcf > 0` (strictly positive mean,
not merely non-zero). -/
noncomputable def stabilityScore (financials : List Financial) : ℝ :=
  let fcf_values := fcfValues financials
  if 1 < fcf_values.length ∧ 0 < avgFcf financials then
    1 - min 1 (npStd fcf_values / |(avgFcf financials : ℝ)|)
  else 0

/-- The dictionary returned by `calculate_base_fcf` (valuation.py:86-92).
All fields are exact rationals except `stability_score`, which involves
`np.std`. -/
structure BaseMetrics where
  base_fcf : ℚ
  ebit_margin : ℚ
  capexRat : ℚ
  fcf_margin : ℚ
  stability_score : ℝ

/-- Embeds `calculate_base_fcf` (valuation.py:13-102).  The two all-zero
early returns (`not financials` at line 24 and `not years_data` at line 58)
coincide because `yearsData [] = []`; the `except` handler at line 94 is
unreachable in this typed model (all line-item values are numbers, and
every division in the body is guarded by a positivity test). -/
noncomputable def calculate_base_fcf (financials : List Financial) : BaseMetrics :=
  match yearsData financials with
  | [] => ⟨0, 0, 0, 0, 0⟩
  | yd@(_ :: _) =>
    let avg_revenue := listMean (yd.map YearData.revenue)
    let avg_ebit := listMean (yd.map YearData.ebit)
    let avg_fcf := listMean (yd.map YearData.fcf)
    let avg_capex := listMean (yd.map YearData.capex)
    { base_fcf := max 0 avg_fcf
      ebit_margin := if 0 < avg_revenue then avg_ebit / avg_revenue else 0
      capexRat := if 0 < avg_revenue then avg_capex / avg_revenue else 0
      fcf_margin := if 0 < avg_revenue then avg_fcf / avg_revenue else 0
      stability_score := stabilityScore financials }

/-! ## Cash-flow projection (`valuation.py:104-175`) -/

/-- The dictionary returned by `project_cash_flows` (valuation.py:166-175). -/
structure ProjOut where
  projected_fcfs : List ℝ
  margin_trends : List ℚ
  capex_forecast : List ℚ
  initial_growth : ℝ
  terminal_growth : ℝ
  margin_expansion : ℚ

/-- Embeds `project_cash_flows` (valuation.py:104-175), which takes the
`base_metrics` dictionary and returns a dictionary of projections. -/
noncomputable def project_cash_flows (base_metrics : BaseMetrics) (growth_rate : ℚ)
    (years : ℕ) : ProjOut :=
  let base_fcf := base_metrics.base_fcf
  let stability := base_metrics.stability_score
  let ebit_margin := base_metrics.ebit_margin
  let capexRat := base_metrics.capexRat
  let effective_growth : ℝ := (growth_rate : ℝ) * (7/10 + 3/10 * stability)
  let margin_expansion : ℚ :=
    if 0 < ebit_margin then min (1/50) (growth_rate * (3/20)) else 0
  let yearIdx : List ℕ := (List.range years).map (fun i => i + 1)
  let fcfs : List ℝ := yearIdx.map (fun (year : ℕ) =>
    let year_growth : ℝ := effective_growth * (1 - 1/50 * (year : ℝ))
    let fcf_before_margin : ℝ := (base_fcf : ℝ) * (1 + year_growth) ^ year
    let year_margin : ℚ := ebit_margin + margin_expansion * (min year 3 : ℕ)
    let year_capex : ℚ := if year ≤ 2 then capexRat * (6/5) else capexRat
    let final_fcf : ℝ := fcf_before_margin * (1 + ((year_margin - ebit_margin : ℚ) : ℝ))
      * (1 - ((year_capex - capexRat : ℚ) : ℝ))
    max 0 final_fcf)
  { projected_fcfs := fcfs
    margin_trends := yearIdx.map (fun year => ebit_margin + margin_expansion * (min year 3 : ℕ))
    capex_forecast := yearIdx.map (fun year => if year ≤ 2 then capexRat * (6/5) else capexRat)
    initial_growth := effective_growth
    terminal_growth := effective_growth * (1/2)
    margin_expansion := margin_expansion }

/-! ## DCF confidence scorer (`valuation.py:177-343`, `382-413`) -/

/-- Embeds `_calculate_margin_stability` (valuation.py:177-197): margins over
years with positive revenue; `1 - min(1, std/|mean|)` when there are at
least two margins and their mean is non-zero, else 0. -/
noncomputable def _calculate_margin_stability (financials : List Financial) : ℝ :=
  let margins := financials.filterMap (fun fin =>
    let revenue := getNum fin.values "Revenue"
    let operating_income := getNum fin.values "Operating Income"
    if 0 < revenue then some (operating_income / revenue) else none)
  if 2 ≤ margins.length then
    if listMean margins ≠ 0 then
      1 - min 1 (npStd margins / |(listMean margins : ℝ)|)
    else 0
  else 0

/-- Embeds `_calculate_historical_growth` (valuation.py:199-218): revenue
CAGR over the years with positive revenue, clamped into [-0.5, 1.0].  The
fractional power `(last/first) ** (1/years)` is `Real.rpow`; its base is
positive because every collected revenue is positive. -/
noncomputable def _calculate_historical_growth (financials : List Financial) : ℝ :=
  let revenues := financials.filterMap (fun fin =>
    let revenue := getNum fin.values "Revenue"
    if 0 < revenue then some ((fin.year, revenue) : ℤ × ℚ) else none)
  if 2 ≤ revenues.length then
    let sorted := revenues.mergeSort (fun x y => x.1 ≤ y.1)
    let first := sorted.headD (0, 0)
    let last := sorted.getLastD (0, 0)
    let years : ℤ := last.1 - first.1
    if 0 < years then
      let cagr : ℝ := ((last.2 / first.2 : ℚ) : ℝ) ^ ((1 : ℝ) / (years : ℝ)) - 1
      max (-(1/2)) (min 1 cagr)
    else 0
  else 0

/-- The `required_fields` list of `assess_data_completeness`
(valuation.py:384-390); these names are looked up at the TOP level of the
statement `data` dict, not inside `data["values"]`. -/
def required_fields : List String :=
  ["operating_income", "revenue", "depreciation", "capital_expenditure",
   "change_in_working_capital"]

/-- The dictionary returned by `assess_data_completeness`
(valuation.py:392-413).  On empty input the source returns a dict without a
`years_available` key, modelled by `none`. -/
structure DataCompleteness where
  score : ℚ
  years_available : Option ℕ
  missing_fields : List String

/-- Embeds `assess_data_completeness` (valuation.py:382-413). -/
def assess_data_completeness (financials : List Financial) : DataCompleteness :=
  match financials with
  | [] => ⟨0, none, required_fields⟩
  | _ =>
    let missing := required_fields.filter (fun field =>
      financials.all (fun f => !((f.top.map Prod.fst).contains field)))
    let years_available := financials.length
    let field_completeness : ℚ :=
      ((required_fields.length - missing.length : ℕ) : ℚ) / (required_fields.length : ℚ)
    ⟨min ((years_available : ℚ) / 5) 1 * field_completeness,
     some years_available, missing⟩

/-- Models the Python expression `0.4 * data_quality` at valuation.py:264,
where `data_quality` is the whole dictionary returned by
`assess_data_completeness` (line 249), not a number.  Multiplying a float
by a dict unconditionally raises `TypeError` in Python, whatever the
operands' contents. -/
def floatTimesDict (_x : ℚ) (_d : DataCompleteness) : Except PyErr ℚ :=
  .error (.typeError "unsupported operand types for *: float and dict")

/-- The `required_metrics` set of `calculate_dcf_confidence`
(valuation.py:254), checked against the keys of `data["values"]`. -/
def required_metrics : List String :=
  ["Revenue", "Operating Income", "Net Income", "Operating Cash Flow"]

/-- The dictionary that `calculate_dcf_confidence` would return
(valuation.py:300-313), with the `sub_metrics` entries flattened. -/
structure ConfidenceOut where
  overall_confidence : ℝ
  data_quality : ℚ
  stability : ℝ
  growth_credibility : ℝ
  risk_assessment : ℝ
  historical_depth : ℚ
  reporting_consistency : ℚ
  fcf_stability : ℝ
  growth_deviation : ℝ
  wacc_reasonableness : ℚ

/-- Embeds `calculate_dcf_confidence` (valuation.py:220-313) in execution
order.  Lines 249-262 run normally; line 264 then evaluates
`0.4 * data_quality + 0.3 * historical_depth + 0.3 * reporting_consistency`
where `data_quality` is the dict returned by `assess_data_completeness`,
so the function raises `TypeError` before any sub-score is produced; the
remainder of the body (lines 266-313) is embedded after that bind and is
therefore dead, exactly as in the source.  (The code at lines 314-343 sits
after the `return` statement and never executes.) -/
noncomputable def calculate_dcf_confidence (financials : List Financial)
    (growth_rate wacc : ℚ) : Except PyErr ConfidenceOut := do
  let data_quality := assess_data_completeness financials
  let years_of_data := (financials.map Financial.year).dedup.length
  let historical_depth : ℚ := min 1 ((years_of_data : ℚ) / 5)
  let consistency_scores : List ℚ := financials.map (fun fin =>
    ((required_metrics.filter (fun m => (fin.values.map Prod.fst).contains m)).length : ℚ)
      / (required_metrics.length : ℚ))
  let reporting_consistency : ℚ :=
    if consistency_scores.length ≠ 0 then
      consistency_scores.sum / (consistency_scores.length : ℚ)
    else 0
  let data_quality_score ← floatTimesDict (2/5) data_quality
  let base_metrics := calculate_base_fcf financials
  let fcf_stability := base_metrics.stability_score
  let margin_stability := _calculate_margin_stability financials
  let stability_score : ℝ := 1/2 * fcf_stability + 1/2 * margin_stability
  let historical_growth := _calculate_historical_growth financials
  let growth_deviation : ℝ :=
    1 - min 1 (|(growth_rate : ℝ) - historical_growth| / max |historical_growth| (1/20))
  let growthWaccRat : ℚ := if 0 < wacc then growth_rate / wacc else 0
  let growth_reasonableness : ℚ := 1 - min 1 (max 0 (growthWaccRat - 4/5))
  let growth_score : ℝ := 1/2 * growth_deviation + 1/2 * (growth_reasonableness : ℝ)
  let wacc_reasonableness : ℚ := 1 - min 1 (|wacc - 23/200| / (23/200))
  let business_stability : ℝ :=
    (base_metrics.ebit_margin : ℝ) * (1 + base_metrics.stability_score)
  let risk_score : ℝ := 1/2 * (wacc_reasonableness : ℝ) + 1/2 * min 1 business_stability
  let final_confidence : ℝ := 3/10 * (data_quality_score : ℝ) + 1/4 * stability_score
    + 1/4 * growth_score + 1/5 * risk_score
  return { overall_confidence := final_confidence
           data_quality := data_quality_score
           stability := stability_score
           growth_credibility := growth_score
           risk_assessment := risk_score
           historical_depth := historical_depth
           reporting_consistency := reporting_consistency
           fcf_stability := fcf_stability
           growth_deviation := growth_deviation
           wacc_reasonableness := wacc_reasonableness }

/-! ## Sensitivity grid (`valuation.py:345-380`) -/

/-- Models the call `project_cash_flows(base_fcf, g, 5)` at valuation.py:369,
where `generate_dcf_sensitivity_grid` passes its `base_fcf: float`
parameter in place of the `base_metrics` dictionary.  The first statement
of `project_cash_flows` (line 123) evaluates `base_metrics["base_fcf"]`,
and subscripting a float unconditionally raises `TypeError`. -/
def project_cash_flows_on_float (_base_fcf _growth_rate : ℚ) (_years : ℕ) :
    Except PyErr ProjOut :=
  .error (.typeError "float object is not subscriptable")

/-- The dictionary returned by `generate_dcf_sensitivity_grid`
(valuation.py:376-380). -/
structure SensitivityGrid where
  growth_rates : List ℚ
  wacc_rates : List ℚ
  values : List (List ℚ)

/-- Embeds `generate_dcf_sensitivity_grid` (valuation.py:345-380).  The axis
lists are built normally; every cell then calls `project_cash_flows` with
the float `base_fcf`, which raises `TypeError` (see
`project_cash_flows_on_float`), so the rest of the cell body
(`fcfs[-1]` — itself a `KeyError` on the returned dict — terminal value,
discounting and rounding, lines 370-373) is unreachable and elided after
the failing bind. -/
def generate_dcf_sensitivity_grid (base_fcf growth_rate wacc terminal_growth : ℚ)
    (growth_delta wacc_delta : ℚ) :
    Except PyErr SensitivityGrid := do
  let growth_rates := ([-2, -1, 0, 1, 2] : List ℤ).map
    (fun i => growth_rate + (i : ℚ) * growth_delta)
  let wacc_rates := ([-2, -1, 0, 1, 2] : List ℤ).map
    (fun i => wacc + (i : ℚ) * wacc_delta)
  let _ := terminal_growth
  let grid ← growth_rates.mapM (fun g =>
    wacc_rates.mapM (fun w => do
      let _fcfs ← project_cash_flows_on_float base_fcf g 5
      let _ := w
      -- valuation.py:370-373 never execute: the bind above always fails
      pure (0 : ℚ)))
  return ⟨growth_rates, wacc_rates, grid⟩

/-! ## The DCF endpoint computation (`api/main.py:103-185`) -/

/-- Models `projected_fcfs[-1]` at api/main.py:136: `projected_fcfs` is the
dictionary returned by `project_cash_flows`, and indexing a dict with the
integer key `-1` unconditionally raises `KeyError: -1`. -/
def projDictIndexNegOne (_p : ProjOut) : Except PyErr ℝ :=
  .error (.keyError "-1")

/-- Embeds the valuation core of the `dcf` endpoint (api/main.py:122-143):
base-FCF estimation, projection, terminal value, discounting, enterprise
value.  The source contains no `wacc <= terminal_growth` test and defines
no `DomainError`; instead line 136 indexes the projection dict as if it
were a list, raising `KeyError: -1` on every request, so the terminal-value
and discounting lines 136-143 (which would otherwise divide by
`wacc - terminal_growth` unguarded) are unreachable and elided after the
failing bind. -/
noncomputable def dcfEndpointValue (financials : List Financial)
    (growth_rate wacc terminal_growth : ℚ) (projection_years : ℕ) :
    Except PyErr ℝ := do
  let base_fcf := calculate_base_fcf financials
  let projected_fcfs := project_cash_flows base_fcf growth_rate projection_years
  let _last_fcf ← projDictIndexNegOne projected_fcfs
  let _ := (wacc, terminal_growth, projection_years)
  -- api/main.py:136-143 never execute: the bind above always fails
  return 0

/-! ## The comps endpoint computation (`api/main.py:188-299`) -/

/-- The yfinance market-data dictionary (`metrics.py:fetch_market_data`),
restricted to its numeric entries; `none` models both an exception inside
`fetch_market_data` (which returns `None`-like falsy data) and a missing
ticker.  An empty list models an empty dict, which is also falsy. -/
def MarketData : Type := List (String × ℚ)

/-- `np.median`: sort ascending, take the middle element, or the average of
the two middle elements for an even count. -/
def npMedian (xs : List ℚ) : ℚ :=
  let sorted := xs.mergeSort (fun a b => a ≤ b)
  let n := xs.length
  if n % 2 = 1 then sorted.getD (n / 2) 0
  else (sorted.getD (n / 2 - 1) 0 + sorted.getD (n / 2) 0) / 2

/-- One entry of the `multiples` list (api/main.py:232-237). -/
structure PeerMultiple where
  company : String
  ev_revenue : ℚ
  ev_ebitda : ℚ
  market_cap : ℚ

/-- The SQL filter of api/main.py:202-206: same sector (SQL `=`, which is
false when either side is NULL), a different id, and market cap between
0.3x and 3.0x of the target's (false when the peer's cap is NULL).  The
target's cap is matched by the caller before the query runs. -/
def sqlPeerFilter (target : Company) (tmc : ℚ) (c : Company) : Bool :=
  (match c.sector, target.sector with
   | some a, some b => a = b
   | _, _ => false) &&
  c.id ≠ target.id &&
  (match c.market_cap with
   | some m => decide (tmc * (3/10) ≤ m ∧ m ≤ tmc * 3)
   | none => false)

/-- The body of the multiples loop (api/main.py:213-239) for one comparable:
`None` means the `continue` branches (no market data, empty market data,
no income statement, empty statement data, or non-positive revenue/EBITDA).
The enterprise value defaults to the peer's market cap when the market-data
dict has no `enterprise_value` entry (api/main.py:231); peers reaching this
point passed the market-cap filter, so the `getD 0` fallback for a NULL cap
is never taken. -/
def peerMultiple (marketData : String → Option MarketData)
    (latestIncome : ℕ → Option Financial) (comp : Company) : Option PeerMultiple :=
  match marketData comp.ticker with
  | none => none
  | some md =>
    if md.isEmpty then none
    else
      match latestIncome comp.id with
      | none => none
      | some f =>
        if f.top.isEmpty && f.values.isEmpty then none
        else
          let revenue := getNum f.top "revenue"
          let ebitda := getNum f.top "ebitda"
          if 0 < revenue ∧ 0 < ebitda then
            let ev := ((md : List (String × ℚ)).lookup "enterprise_value").getD
              (comp.market_cap.getD 0)
            some ⟨comp.ticker, ev / revenue, ev / ebitda, comp.market_cap.getD 0⟩
          else none

/-- The successful payload of the comps endpoint (api/main.py:270-294). -/
structure CompsOut where
  enterprise_value : ℚ
  confidence : ℚ
  ev_revenue_multiple : ℚ
  ev_ebitda_multiple : ℚ
  multiples : List PeerMultiple
  implied_ev_revenue : ℚ
  implied_ev_ebitda : ℚ

/-- Embeds the `comps` endpoint computation (api/main.py:188-299).  Errors
are the endpoint's JSON error responses, as (HTTP status, message); the
outer `except` (api/main.py:295-297) turns a `None` target market cap —
which would make the query expression `target.market_cap * 0.3` raise
`TypeError` — into a 500 response.  `companies` is the companies table in
scan order; `.take 10` is the query's `limit(10)`. -/
def compsEndpoint (target : Company) (companies : List Company)
    (marketData : String → Option MarketData)
    (latestIncome : ℕ → Option Financial) : Except (ℕ × String) CompsOut :=
  match target.market_cap with
  | none => .error (500, "TypeError: unsupported operand types for *: NoneType and float")
  | some tmc =>
    let comparable_companies := (companies.filter (sqlPeerFilter target tmc)).take 10
    if comparable_companies.isEmpty then
      .error (404, "No comparable companies found")
    else
      let multiples := comparable_companies.filterMap (peerMultiple marketData latestIncome)
      if multiples.isEmpty then
        .error (404, "Could not calculate multiples")
      else
        let ev_revenue_median := npMedian (multiples.map PeerMultiple.ev_revenue)
        let ev_ebitda_median := npMedian (multiples.map PeerMultiple.ev_ebitda)
        match latestIncome target.id with
        | none => .error (404, "Target financials not found")
        | some tf =>
          if tf.top.isEmpty && tf.values.isEmpty then
            .error (404, "Target financials not found")
          else
            let target_revenue := getNum tf.top "revenue"
            let target_ebitda := getNum tf.top "ebitda"
            let implied_ev_revenue := target_revenue * ev_revenue_median
            let implied_ev_ebitda := target_ebitda * ev_ebitda_median
            let enterprise_value := implied_ev_revenue * (2/5) + implied_ev_ebitda * (3/5)
            let confidence : ℚ := min 1 ((multiples.length : ℚ) / 5)
            .ok ⟨enterprise_value, confidence, ev_revenue_median, ev_ebitda_median,
              multiples, implied_ev_revenue, implied_ev_ebitda⟩

/-- A peer is usable for the comps valuation (spec §4.7): it passes the
same-sector / distinct-id / market-cap-window SQL filter and survives every
`continue` branch of the multiples loop (market data present and non-empty,
an income statement with non-empty data, positive revenue and EBITDA). -/
def usablePeer (target : Company) (tmc : ℚ) (marketData : String → Option MarketData)
    (latestIncome : ℕ → Option Financial) (c : Company) : Bool :=
  sqlPeerFilter target tmc c && (peerMultiple marketData latestIncome c).isSome

/-! ## Growth metrics and pair scoring (`pairing.py:121-358`) -/

/-- The key classification of `_calculate_growth_metrics`
(pairing.py:154-166): each line item key is lowercased and routed by the
first matching substring test of the `if/elif` chain.  Returns the series
name the pair is appended to, if any. -/
def classifyKey (k : String) : Option String :=
  let kl := pyLower k
  if strContainsSub kl "revenue" || strContainsSub kl "sales" then some "revenue"
  else if strContainsSub kl "ebitda" then some "ebitda"
  else if strContainsSub kl "net income" then some "net_income"
  else if strContainsSub kl "operating cash flow" then some "operating_cash_flow"
  else none

/-- The per-metric time series of `_calculate_growth_metrics`
(pairing.py:140-172): scan the statements in order, collect `(year, value)`
pairs routed to `name` by `classifyKey`, then stable-sort by year. -/
def metricSeries (financials : List Financial) (name : String) : List (ℤ × ℚ) :=
  (financials.flatMap (fun f =>
    f.values.filterMap (fun kv =>
      if classifyKey kv.1 = some name then some ((f.year, kv.2) : ℤ × ℚ) else none))
    ).mergeSort (fun x y => x.1 ≤ y.1)

/-- The clamp loop of `_calculate_growth_metrics` (pairing.py:219-221):
every result whose key contains `growth` or `cagr` is clamped into
[-0.5, 1.0]. -/
noncomputable def clampGrowthKeys (results : List (String × ℝ)) : List (String × ℝ) :=
  results.map (fun kv =>
    if strContainsSub kv.1 "growth" || strContainsSub kv.1 "cagr" then
      (kv.1, max (-(1/2)) (min 1 kv.2))
    else kv)

/-- Embeds `_calculate_growth_metrics` (pairing.py:121-223) as the
association list it returns.  Note the keys: the short-circuit branch for
fewer than two statements (lines 130-138) and the main path (lines 174-221)
both produce `revenue_cagr`; no branch produces a key named `cagr` — the
`return` at lines 225-228 that built a `cagr` key is after the function's
`return results` and never executes.  The CAGR value uses `Real.rpow` for
Python `** (1/years)`. -/
noncomputable def _calculate_growth_metrics (financials : List Financial) :
    List (String × ℝ) :=
  if financials.length < 2 then
    [("revenue_growth", 0), ("revenue_cagr", 0), ("ebitda_margin", 0),
     ("ebitda_growth", 0), ("net_margin", 0), ("margin_trend", 0)]
  else
    let revenue := metricSeries financials "revenue"
    let ebitda := metricSeries financials "ebitda"
    let net_income := metricSeries financials "net_income"
    let revenue_growth : ℝ :=
      if 2 ≤ revenue.length then
        let latest_rev := (revenue.getLastD (0, 0)).2
        let prev_rev := (revenue.getD (revenue.length - 2) (0, 0)).2
        if 0 < prev_rev then ((latest_rev / prev_rev - 1 : ℚ) : ℝ) else 0
      else 0
    let revenue_cagr : ℝ :=
      if 2 ≤ revenue.length then
        let latest_rev := (revenue.getLastD (0, 0)).2
        let first_rev := (revenue.headD (0, 0)).2
        let years : ℤ := (revenue.getLastD (0, 0)).1 - (revenue.headD (0, 0)).1
        if 0 < years ∧ 0 < first_rev then
          ((latest_rev / first_rev : ℚ) : ℝ) ^ ((1 : ℝ) / (years : ℝ)) - 1
        else 0
      else 0
    let ebitda_margin : ℝ :=
      if ¬revenue.isEmpty ∧ ¬ebitda.isEmpty then
        let latest_rev := (revenue.getLastD (0, 0)).2
        let latest_ebitda :=
          ((ebitda.find? (fun v => v.1 == (revenue.getLastD (0, 0)).1)).map Prod.snd).getD 0
        if 0 < latest_rev then ((latest_ebitda / latest_rev : ℚ) : ℝ) else 0
      else 0
    let ebitda_growth : ℝ :=
      if ¬revenue.isEmpty ∧ ¬ebitda.isEmpty then
        if 2 ≤ ebitda.length then
          let prev := (ebitda.getD (ebitda.length - 2) (0, 0)).2
          if 0 < prev then (((ebitda.getLastD (0, 0)).2 / prev - 1 : ℚ) : ℝ) else 0
        else 0
      else 0
    let margins : List ℚ :=
      if ¬revenue.isEmpty ∧ ¬net_income.isEmpty then
        revenue.filterMap (fun (yr : ℤ × ℚ) =>
          match net_income.find? (fun v => v.1 == yr.1) with
          | some ni => if 0 < yr.2 then some (ni.2 / yr.2) else none
          | none => none)
      else []
    let margin_trend : ℝ :=
      if 2 ≤ margins.length then
        (((margins.getLastD 0 - margins.headD 0) / (margins.length : ℚ) : ℚ) : ℝ)
      else 0
    let net_margin : ℝ := if 2 ≤ margins.length then ((margins.getLastD 0 : ℚ) : ℝ) else 0
    clampGrowthKeys
      [("revenue_growth", revenue_growth), ("revenue_cagr", revenue_cagr),
       ("ebitda_margin", ebitda_margin), ("ebitda_growth", ebitda_growth),
       ("margin_trend", margin_trend), ("net_margin", net_margin)]

/-- Python `d[k]` on an association list: `KeyError` when the key is
missing. -/
def pyGetItem {α : Type} (d : List (String × α)) (k : String) : Except PyErr α :=
  match d.lookup k with
  | some v => .ok v
  | none => .error (.keyError k)

/-- Embeds `score_pair` (pairing.py:263-309).  The sub-score computations of
lines 265-277 run normally — in particular `_sector_score` is called with
the two sectors only, never with industries (line 270) — and line 281 then
evaluates `tgt_growth_metrics["cagr"]`, whose key does not exist (see
`_calculate_growth_metrics`), raising `KeyError`.  The cached-financials
lookup is a function parameter.  The dead second return at lines 311-312
is not modelled. -/
noncomputable def score_pair (acquirer target : Company)
    (getFinancials : ℕ → List Financial) :
    Except PyErr (ℝ × List (String × ℝ)) := do
  let acq_cap : ℚ := acquirer.market_cap.getD 0
  let tgt_cap : ℚ := target.market_cap.getD 0
  let size := _size_score (some acq_cap) (some tgt_cap)
  let sector := _sector_score (acquirer.sector.getD "") (target.sector.getD "") none none
  let acq_financials := getFinancials acquirer.id
  let tgt_financials := getFinancials target.id
  let _acq_growth_metrics := _calculate_growth_metrics acq_financials
  let tgt_growth_metrics := _calculate_growth_metrics tgt_financials
  let tgt_cagr ← pyGetItem tgt_growth_metrics "cagr"
  let tgt_recent ← pyGetItem tgt_growth_metrics "revenue_growth"
  let growth_synergy : ℝ := max 0 (min 1 (7/10 * tgt_cagr + 3/10 * tgt_recent))
  let relative_size : ℚ := if 0 < acq_cap then tgt_cap / acq_cap else 0
  let market_position : ℚ := max 0 (min 1 (1 - |3/10 - relative_size|))
  let total : ℝ := 2/5 * (size : ℝ) + 1/4 * (sector : ℝ) + 1/5 * growth_synergy
    + 3/20 * (market_position : ℝ)
  return (total * 100,
    [("size", (size : ℝ)), ("sector", (sector : ℝ)),
     ("growth_synergy", growth_synergy), ("market_position", (market_position : ℝ)),
     ("target_cagr", tgt_cagr), ("target_recent_growth", tgt_recent)])

/-- Embeds the scoring core of `generate_top_pairs` (pairing.py:315-358):
score every candidate in a plain loop with no exception handling
(lines 328-330), stable-sort descending by score (line 332) and keep the
first `top` (line 333).  The acquirer lookup and the `DealPair` upsert /
commit are persistence-layer work outside this core and are not part of
the scoring semantics. -/
noncomputable def generate_top_pairs (acquirer : Company) (candidates : List Company)
    (getFinancials : ℕ → List Financial) (top : ℕ) :
    Except PyErr (List (Company × ℝ × List (String × ℝ))) := do
  let scored ← candidates.mapM (fun tgt => do
    let sc ← score_pair acquirer tgt getFinancials
    return (tgt, sc.1, sc.2))
  let sorted := scored.mergeSort (fun x y => decide (y.2.1 ≤ x.2.1))
  return sorted.take top

/-! ## Concrete inputs used in witnesses and counterexamples -/

/-- Two income statements whose normalised FCF is -75 each year (Revenue
100, Operating Income -100, so FCF = -100 * 0.75): two included years with
a strictly negative mean FCF. -/
def negFcfStatements : List Financial :=
  [⟨2022, [], [("Revenue", 100), ("Operating Income", -100)]⟩,
   ⟨2021, [], [("Revenue", 100), ("Operating Income", -100)]⟩]

/-- Two income statements whose normalised FCF is 75 each year: two included
years with a strictly positive mean FCF and zero variance. -/
def posFcfStatements : List Financial :=
  [⟨2022, [], [("Revenue", 100), ("Operating Income", 100)]⟩,
   ⟨2021, [], [("Revenue", 100), ("Operating Income", 100)]⟩]

/-- A concrete acquirer used in witnesses. -/
def acqA : Company := ⟨1, "AAPL", "Apple Inc", some "Technology", some 2500⟩

/-- A concrete candidate target. -/
def tgtB : Company := ⟨2, "SPOT", "Spotify", some "Technology", some 500⟩

/-- A second concrete candidate target. -/
def tgtC : Company := ⟨3, "SONO", "Sonos", some "Technology", some 400⟩

/-- A concrete comps target with a present market cap. -/
def tgtD : Company := ⟨10, "TGT", "Target Co", some "Technology", some 100⟩

/-! ## Theorems -/

/-- Helper: `_sector_score` with no industries takes only the values
0, 0.3 and 0.7, and equals 0.7 whenever the two sectors are non-empty and
normalise to the same string. -/
theorem sector_score_no_industry (s t : String) :
    (_sector_score s t none none = 0 ∨ _sector_score s t none none = 3/10 ∨
     _sector_score s t none none = 7/10) ∧
    (s ≠ "" → t ≠ "" → pyLower (pyStrip s) = pyLower (pyStrip t) →
      _sector_score s t none none = 7/10) := by
  constructor
  · simp only [_sector_score]
    split_ifs <;> norm_num
  · intro hs ht heq
    simp only [_sector_score]
    rw [if_neg (by simp [hs, ht]), if_pos heq]

/-- C9: whenever either market-cap argument of `_size_score` is missing
(`None`) or not strictly positive, the score is exactly 0; the guard at
pairing.py:26-28 fires before the ratio is formed, so the function neither
raises nor divides by zero (it is total by construction). -/
theorem c9_size_score_guard (a t : Option ℚ)
    (h : a.getD 0 ≤ 0 ∨ t.getD 0 ≤ 0) : _size_score a t = 0 := by
  match a, t with
  | none, _ => rfl
  | some p, none => rfl
  | some p, some q =>
    simp only [Option.getD_some] at h
    have hg : p = 0 ∨ q = 0 ∨ p ≤ 0 ∨ q ≤ 0 := by tauto
    simp only [_size_score, if_pos hg]

/-- Witness for C9 at a concrete input: a missing acquirer cap yields 0. -/
theorem c9_witness : _size_score none (some 5) = 0 :=
  c9_size_score_guard none (some 5) (Or.inl (by norm_num))

/-- C8: for strictly positive caps, `_size_score` is exactly the piecewise
function of `r = tgt_cap / acq_cap` described by the spec (0 below 5% and
above 70%, 1 on [10%, 50%], linear interpolation on the transition bands),
and in particular takes the three values the spec lists. -/
theorem c8_size_score_piecewise (a t : ℚ) (ha : 0 < a) (ht : 0 < t) :
    _size_score (some a) (some t) = sizeScoreSpec (t / a) ∧
    _size_score (some 100) (some 30) = 1 ∧
    _size_score (some 100) (some 2) = 0 ∧
    _size_score (some 100) (some 80) = 0 := by
  refine ⟨?_, by norm_num [_size_score], by norm_num [_size_score], by norm_num [_size_score]⟩
  have hg : ¬(a = 0 ∨ t = 0 ∨ a ≤ 0 ∨ t ≤ 0) := by
    push_neg
    exact ⟨ne_of_gt ha, ne_of_gt ht, ha, ht⟩
  simp only [_size_score, if_neg hg, sizeScoreSpec]
  split_ifs <;> ring

/-- Witness for C8 at a concrete input: 30% of the acquirer's cap is in the
ideal band. -/
theorem c8_witness : _size_score (some 100) (some 30) = 1 :=
  (c8_size_score_piecewise 100 30 (by norm_num) (by norm_num)).2.1

/-- C10: `score_pair` calls `_sector_score` with the two sectors only
(pairing.py:270) and industries therefore default to `None`, so the sector
sub-score it computes is always one of 0, 0.3, 0.7 — the industry-level
outcomes 1.0, 0.8, 0.6 are unreachable — and every pair sharing the same
non-empty sector receives exactly 0.7. -/
theorem c10_sector_score_range (acquirer target : Company) :
    (_sector_score (acquirer.sector.getD "") (target.sector.getD "") none none = 0 ∨
     _sector_score (acquirer.sector.getD "") (target.sector.getD "") none none = 3/10 ∨
     _sector_score (acquirer.sector.getD "") (target.sector.getD "") none none = 7/10) ∧
    (∀ sec : String, sec ≠ "" → acquirer.sector = some sec → target.sector = some sec →
      _sector_score (acquirer.sector.getD "") (target.sector.getD "") none none = 7/10) := by
  constructor
  · exact (sector_score_no_industry _ _).1
  · intro sec hsec hacq htgt
    rw [hacq, htgt]
    exact (sector_score_no_industry sec sec).2 (by simpa) (by simpa) rfl

/-- Witness for C10 at a concrete input: two technology-sector companies
score 0.7 on the sector factor. -/
theorem c10_witness :
    _sector_score ((Company.mk 1 "A" "A" (some "Technology") (some 100)).sector.getD "")
      ((Company.mk 2 "B" "B" (some "Technology") (some 30)).sector.getD "") none none
      = 7/10 :=
  (c10_sector_score_range (Company.mk 1 "A" "A" (some "Technology") (some 100))
    (Company.mk 2 "B" "B" (some "Technology") (some 30))).2 "Technology"
    (by decide) rfl rfl

/-- Helper: the `stability_score` field of `calculate_base_fcf` is always
the value computed at valuation.py:78-84. -/
theorem base_stability_eq (financials : List Financial) :
    (calculate_base_fcf financials).stability_score = stabilityScore financials := by
  unfold calculate_base_fcf
  split
  · next heq => simp [stabilityScore, fcfValues, heq]
  · rfl

/-- Helper: the per-year FCF list of the negative-mean example. -/
theorem negFcf_fcfValues : fcfValues negFcfStatements = [-75, -75] := by
  simp [fcfValues, yearsData, negFcfStatements, getNum, List.filterMap, List.lookup]
  norm_num

/-- Helper: the mean FCF of the negative-mean example. -/
theorem negFcf_avg : avgFcf negFcfStatements = -75 := by
  rw [avgFcf, negFcf_fcfValues]
  norm_num [listMean]

/-- Helper: the per-year FCFs of the negative-mean example have zero
standard deviation. -/
theorem negFcf_std : npStd (fcfValues negFcfStatements) = 0 := by
  rw [negFcf_fcfValues]
  have h : pvariance [-75, -75] = 0 := by norm_num [pvariance, listMean]
  rw [npStd, h]
  simp

/-- Helper: the per-year FCF list of the positive-mean example. -/
theorem posFcf_fcfValues : fcfValues posFcfStatements = [75, 75] := by
  simp [fcfValues, yearsData, posFcfStatements, getNum, List.filterMap, List.lookup]
  norm_num

/-- Helper: the mean FCF of the positive-mean example. -/
theorem posFcf_avg : avgFcf posFcfStatements = 75 := by
  rw [avgFcf, posFcf_fcfValues]
  norm_num [listMean]

/-- C7 counterexample: `negFcfStatements` has two included years and a
non-zero (negative) mean FCF, yet `estimate_base_fcf` returns
`stability_score = 0` while the claimed formula
`1 - min(1, std/|mean|)` evaluates to 1: the source guard at
valuation.py:80 is `avg_fcf > 0`, not `avg_fcf != 0`. -/
theorem c7_counterexample :
    2 ≤ (fcfValues negFcfStatements).length ∧ avgFcf negFcfStatements ≠ 0 ∧
    (calculate_base_fcf negFcfStatements).stability_score ≠
      1 - min 1 (npStd (fcfValues negFcfStatements) / |(avgFcf negFcfStatements : ℝ)|) := by
  refine ⟨by rw [negFcf_fcfValues]; norm_num, by rw [negFcf_avg]; norm_num, ?_⟩
  have h0 : (calculate_base_fcf negFcfStatements).stability_score = 0 := by
    rw [base_stability_eq]
    simp only [stabilityScore]
    rw [if_neg]
    intro hc
    rw [negFcf_avg] at hc
    exact absurd hc.2 (by norm_num)
  rw [h0, negFcf_std, negFcf_avg]
  push_cast
  norm_num

/-- C7 (amended): the stability score of `estimate_base_fcf` equals
`1 - min(1, std(fcfs)/|mean fcf|)` whenever at least two years are included
and the mean FCF is strictly positive (the source tests `avg_fcf > 0`, so a
negative mean also yields 0), and equals 0 otherwise. -/
theorem c7_stability_guard (financials : List Financial) :
    (2 ≤ (fcfValues financials).length ∧ 0 < avgFcf financials →
      (calculate_base_fcf financials).stability_score =
        1 - min 1 (npStd (fcfValues financials) / |(avgFcf financials : ℝ)|)) ∧
    (¬(2 ≤ (fcfValues financials).length ∧ 0 < avgFcf financials) →
      (calculate_base_fcf financials).stability_score = 0) := by
  rw [base_stability_eq]
  constructor
  · intro h
    simp only [stabilityScore]
    rw [if_pos ⟨by omega, h.2⟩]
  · intro h
    simp only [stabilityScore]
    rw [if_neg]
    intro hc
    exact h ⟨by omega, hc.2⟩

/-- Witness for C7 at a concrete input: two equal positive-FCF years satisfy
the guard, and the formula applies (and evaluates to 1). -/
theorem c7_witness :
    (calculate_base_fcf posFcfStatements).stability_score =
      1 - min 1 (npStd (fcfValues posFcfStatements) / |(avgFcf posFcfStatements : ℝ)|) :=
  (c7_stability_guard posFcfStatements).1
    ⟨by rw [posFcf_fcfValues]; norm_num, by rw [posFcf_avg]; norm_num⟩


/-- C2 (code bug): `calculate_dcf_confidence` raises `TypeError` on every
input — line 264 multiplies the float 0.4 by the dict returned by
`assess_data_completeness` — so it never returns any sub-score, let alone
sub-scores in [0,1]; the own integration test of the repository
(`test_integration.py:test_dcf_valuation`) instead expects a numeric
confidence between 0 and 1. -/
theorem c2_confidence_raises_type_error (financials : List Financial)
    (growth_rate wacc : ℚ) :
    calculate_dcf_confidence financials growth_rate wacc =
      Except.error (PyErr.typeError "unsupported operand types for *: float and dict") :=
  rfl

/-- C3 (code bug): `generate_dcf_sensitivity_grid` raises `TypeError` on
every input — it hands its float `base_fcf` to `project_cash_flows`, which
immediately subscripts it — so no 5x5 grid (and hence no centre cell) is
ever produced. -/
theorem c3_sensitivity_grid_raises_type_error
    (base_fcf growth_rate wacc terminal_growth growth_delta wacc_delta : ℚ) :
    generate_dcf_sensitivity_grid base_fcf growth_rate wacc terminal_growth
      growth_delta wacc_delta =
      Except.error (PyErr.typeError "float object is not subscriptable") :=
  rfl

/-- C1 counterexample: at a concrete input with
`wacc = terminal_growth = 0.02`, the DCF endpoint computation does fail —
but with `KeyError: -1` from indexing the projection dict, not with a
`DomainError`; no `wacc <= terminal_growth` check exists in the source. -/
theorem c1_counterexample :
    (2/100 : ℚ) ≤ 2/100 ∧
    dcfEndpointValue [] (3/100) (2/100) (2/100) 5 ≠ Except.error PyErr.domainError := by
  refine ⟨le_refl _, ?_⟩
  intro h
  have h2 : (Except.error (PyErr.keyError "-1") : Except PyErr ℝ) =
      Except.error PyErr.domainError := h
  simp at h2

/-- C1 (amended): for every request with `wacc <= terminal_growth` (indeed
for every request), the DCF endpoint computation fails — with
`KeyError: -1` at api/main.py:136, where the dict returned by
`project_cash_flows` is indexed like a list — and never returns an
enterprise value; the failure is not a `DomainError` and the source
contains no `wacc <= terminal_growth` check. -/
theorem c1_dcf_always_fails (financials : List Financial)
    (growth_rate wacc terminal_growth : ℚ) (projection_years : ℕ)
    (_h : wacc ≤ terminal_growth) :
    dcfEndpointValue financials growth_rate wacc terminal_growth projection_years =
      Except.error (PyErr.keyError "-1") :=
  rfl

/-- Witness for C1 at a concrete input with `wacc = terminal_growth`. -/
theorem c1_witness :
    dcfEndpointValue [] (3/100) (2/100) (2/100) 5 = Except.error (PyErr.keyError "-1") :=
  c1_dcf_always_fails [] (3/100) (2/100) (2/100) 5 (le_refl _)

/-- Helper: no branch of `_calculate_growth_metrics` produces a key named
`cagr` (the long-horizon growth is stored under `revenue_cagr`). -/
theorem growth_metrics_no_cagr (financials : List Financial) :
    (_calculate_growth_metrics financials).lookup "cagr" = none := by
  unfold _calculate_growth_metrics
  split
  · rfl
  · rfl

/-- Helper: `score_pair` fails with `KeyError: cagr` on every input, because
line 281 of pairing.py reads `tgt_growth_metrics["cagr"]` while
`_calculate_growth_metrics` stores the value under `revenue_cagr`. -/
theorem score_pair_always_key_error (acquirer target : Company)
    (getFinancials : ℕ → List Financial) :
    score_pair acquirer target getFinancials = Except.error (PyErr.keyError "cagr") := by
  have h : pyGetItem (_calculate_growth_metrics (getFinancials target.id)) "cagr"
      = Except.error (PyErr.keyError "cagr") := by
    unfold pyGetItem
    rw [growth_metrics_no_cagr]
  simp only [score_pair, h]
  rfl

/-- C4 (code bug): `score_pair` raises `KeyError: cagr` for every
acquirer/target pair, so the growth-synergy sub-score
`0.7 x CAGR + 0.3 x recent growth` (whose clamped ingredients
`_calculate_growth_metrics` does compute, under the key `revenue_cagr`)
is never produced. -/
theorem c4_score_pair_raises_key_error (acquirer target : Company)
    (getFinancials : ℕ → List Financial) :
    score_pair acquirer target getFinancials = Except.error (PyErr.keyError "cagr") :=
  score_pair_always_key_error acquirer target getFinancials

/-- Helper: if scoring one member of the candidate list fails, the whole
`mapM` over the candidates fails. -/
theorem mapM_scored_error (acquirer : Company) (getFinancials : ℕ → List Financial)
    (c : Company) (e : PyErr)
    (he : score_pair acquirer c getFinancials = Except.error e) :
    ∀ candidates : List Company, c ∈ candidates →
      ∃ e2, (candidates.mapM (fun tgt => do
        let sc ← score_pair acquirer tgt getFinancials
        return (tgt, sc.1, sc.2)) : Except PyErr _) = Except.error e2 := by
  intro candidates
  induction candidates with
  | nil => intro hc; exact absurd hc (List.not_mem_nil c)
  | cons hd tl ih =>
    intro hc
    rw [List.mapM_cons]
    cases hsp : score_pair acquirer hd getFinancials with
    | error e1 => exact ⟨e1, rfl⟩
    | ok v =>
      rcases List.mem_cons.mp hc with rfl | hmem
      · rw [he] at hsp
        exact Except.noConfusion hsp
      · obtain ⟨e2, h2⟩ := ih hmem
        exact ⟨e2, by rw [h2]; rfl⟩

/-- C5 counterexample: a concrete acquirer and a two-candidate universe in
which scoring the first candidate raises; `generate_top_pairs` does not
exclude that candidate and rank the rest — it aborts with the error, so no
ranking at all is returned. -/
theorem c5_counterexample :
    score_pair acqA tgtB (fun _ => []) = Except.error (PyErr.keyError "cagr") ∧
    generate_top_pairs acqA [tgtB, tgtC] (fun _ => []) 20 =
      Except.error (PyErr.keyError "cagr") :=
  ⟨score_pair_always_key_error acqA tgtB (fun _ => []), by
    have h := mapM_scored_error acqA (fun _ => []) tgtB (PyErr.keyError "cagr")
      (score_pair_always_key_error acqA tgtB (fun _ => [])) [tgtB, tgtC]
      (List.mem_cons_self tgtB [tgtC])
    obtain ⟨e2, h2⟩ := h
    have h3 : score_pair acqA tgtB (fun _ => []) = Except.error (PyErr.keyError "cagr") :=
      score_pair_always_key_error acqA tgtB (fun _ => [])
    unfold generate_top_pairs
    rw [List.mapM_cons, h3]
    rfl⟩

/-- C5 (amended): if scoring any single candidate raises an error,
`generate_top_pairs` aborts: the scoring loop (pairing.py:328-330) has no
exception handling, so the error propagates and no ranking of the
remaining candidates is returned. -/
theorem c5_ranking_aborts (acquirer : Company) (candidates : List Company)
    (getFinancials : ℕ → List Financial) (top : ℕ) (c : Company)
    (hc : c ∈ candidates) (e : PyErr)
    (he : score_pair acquirer c getFinancials = Except.error e) :
    ∃ e2, generate_top_pairs acquirer candidates getFinancials top =
      Except.error e2 := by
  obtain ⟨e2, h2⟩ := mapM_scored_error acquirer getFinancials c e he candidates hc
  refine ⟨e2, ?_⟩
  unfold generate_top_pairs
  rw [h2]
  rfl

/-- Witness for C5 at a concrete input: a singleton candidate list whose
only member fails to score. -/
theorem c5_witness :
    ∃ e2, generate_top_pairs acqA [tgtB] (fun _ => []) 20 = Except.error e2 :=
  c5_ranking_aborts acqA [tgtB] (fun _ => []) 20 tgtB
    (List.mem_cons_self tgtB []) (PyErr.keyError "cagr")
    (score_pair_always_key_error acqA tgtB (fun _ => []))

/-- C6: when no peer in the companies table is usable — none passes the
same-sector, market-cap-window, market-data and positive-revenue-and-EBITDA
gates — the comps endpoint returns an explicit error response and never an
enterprise value (in particular not a zero or placeholder one). -/
theorem c6_no_usable_peers_fails (target : Company) (companies : List Company)
    (marketData : String → Option MarketData) (latestIncome : ℕ → Option Financial)
    (h : ∀ tmc : ℚ, target.market_cap = some tmc →
      ∀ c ∈ companies, usablePeer target tmc marketData latestIncome c = false) :
    ∃ e, compsEndpoint target companies marketData latestIncome = Except.error e := by
  cases hmc : target.market_cap with
  | none =>
    refine ⟨(500, "TypeError: unsupported operand types for *: NoneType and float"), ?_⟩
    simp only [compsEndpoint, hmc]
  | some tmc =>
    by_cases hf : ((companies.filter (sqlPeerFilter target tmc)).take 10).isEmpty
    · refine ⟨(404, "No comparable companies found"), ?_⟩
      simp only [compsEndpoint, hmc, hf, if_true]
    · have hm : ((companies.filter (sqlPeerFilter target tmc)).take 10).filterMap
          (peerMultiple marketData latestIncome) = [] := by
        rw [List.filterMap_eq_nil_iff]
        intro c hcf
        have hc1 : c ∈ companies.filter (sqlPeerFilter target tmc) :=
          List.take_subset _ _ hcf
        have hc2 : c ∈ companies := (List.mem_filter.mp hc1).1
        have hc3 : sqlPeerFilter target tmc c = true := (List.mem_filter.mp hc1).2
        have hu := h tmc hmc c hc2
        unfold usablePeer at hu
        rw [hc3] at hu
        simp only [Bool.true_and] at hu
        exact Option.not_isSome_iff_eq_none.mp (by rw [hu]; exact Bool.false_ne_true)
      refine ⟨(404, "Could not calculate multiples"), ?_⟩
      simp only [Bool.not_eq_true] at hf
      simp only [compsEndpoint, hmc, hf, hm, Bool.false_eq_true, if_false, List.isEmpty_nil,
        if_true]

/-- Witness for C6 at a concrete input: an empty peer table. -/
theorem c6_witness :
    ∃ e, compsEndpoint tgtD [] (fun _ => none) (fun _ => none) = Except.error e :=
  c6_no_usable_peers_fails tgtD [] (fun _ => none) (fun _ => none)
    (fun _ _ c hc => absurd hc (List.not_mem_nil c))

end MnA
